import Mathlib

/-!
Shallow embedding of `src/server_dashboard.py`, a Streamlit dashboard that
loads one or two tabular health-check reports, validates a fixed column
schema, cleans the Last Registration column, partitions rows into active
and inactive hosts by a day threshold, aggregates categorical counts over
the active rows, and diffs the host sets of two reports.

Tables are association-list rows (pandas DataFrames); cell values are text,
parsed timestamps (seconds), or the missing-value marker (NaN / NaT).  The
datetime parser behind pd.to_datetime is abstracted as a function
String → Option Int; pandas comparison semantics for missing values (NaT
compares false under < and ≥, NaN is unequal to everything including NaN
under !=, value_counts drops missing values) are embedded explicitly.
-/

namespace ServerDashboard

/-- A cell value of a report table: a text value, a parsed timestamp
(seconds since an epoch), or the missing-value marker (NaN / NaT). -/
inductive Value where
  | str (s : String)
  | timestamp (t : Int)
  | na
  deriving DecidableEq, Repr

/-- A row of a report table: an association list from column names to cell
values, mirroring a pandas row as a mapping from column labels to values. -/
abbrev Row := List (String × Value)

/-- Read the cell of column `c`; a column the row does not carry reads as
the missing-value marker, as a missing label does in pandas. -/
def Row.get : Row → String → Value
  | [], _ => Value.na
  | p :: r, c => if p.fst = c then p.snd else Row.get r c

/-- Column assignment `df[c] = v` restricted to one row: every cell of
column `c` is replaced by `v`. -/
def Row.set (r : Row) (c : String) (v : Value) : Row :=
  r.map (fun p => if p.fst = c then (c, v) else p)

/-- A loaded report table: the column labels and the rows. -/
structure DataFrame where
  columns : List String
  rows : List Row
  deriving DecidableEq, Repr

/-- Column label constants used by the dashboard. -/
def hostNameCol : String := "Host Name"

def netClientCol : String := "Network Location (from client)"

def netServerCol : String := "Network Location (from server)"

def lastRegCol : String := "Last Registration"

def regErrorCol : String := "Registration Error"

def statusCol : String := "Status"

def versionCol : String := "Version"

def usingTlsCol : String := "Using TLS"

/-- The required column list of the schema validation block
(src/server_dashboard.py lines 95-99). -/
def required_columns : List String :=
  [hostNameCol, netClientCol, netServerCol, "Valid Key", usingTlsCol,
   "Send State", "Receive State", statusCol, regErrorCol, lastRegCol,
   versionCol]

/-- pd.to_datetime(v, errors=coerce) on one cell: text is handed to the
datetime parser (abstracted as `parse`); unparseable text and missing
values coerce to the missing marker NaT; a parsed timestamp is kept. -/
def toDatetime (parse : String → Option Int) : Value → Value
  | Value.str s =>
    match parse s with
    | some t => Value.timestamp t
    | none => Value.na
  | Value.timestamp t => Value.timestamp t
  | Value.na => Value.na

/-- One row after the column assignment on line 108:
df[lastRegCol] = pd.to_datetime(df[lastRegCol], errors=coerce). -/
def convertRow (parse : String → Option Int) (r : Row) : Row :=
  Row.set r lastRegCol (toDatetime parse (Row.get r lastRegCol))

/-- The whole-table column conversion of line 108. -/
def convertLastRegistration (parse : String → Option Int) (df : DataFrame) :
    DataFrame :=
  { df with rows := df.rows.map (convertRow parse) }

/-- df.dropna(subset=[lastRegCol]) of line 110: keep the rows whose Last
Registration cell is not the missing marker. -/
def dropnaLastRegistration (df : DataFrame) : DataFrame :=
  { df with rows := df.rows.filter (fun r => Row.get r lastRegCol != Value.na) }

/-- The cleaned table produced by lines 108-110. -/
def cleanedReport (parse : String → Option Int) (df : DataFrame) : DataFrame :=
  dropnaLastRegistration (convertLastRegistration parse df)

/-- Timestamps are held in seconds, so timedelta(days=d) is d * 86400. -/
def secondsPerDay : Int := 86400

/-- cutoff_date = datetime.now() - timedelta(days=days_threshold), line 121. -/
def cutoff_date (now : Int) (days_threshold : Nat) : Int :=
  now - days_threshold * secondsPerDay

/-- Pandas comparison `cell < cutoff` on a Last Registration cell: a real
timestamp compares numerically; NaT (and any non-timestamp) compares false. -/
def Value.ltTime (v : Value) (cutoff : Int) : Bool :=
  match v with
  | Value.timestamp t => decide (t < cutoff)
  | _ => false

/-- Pandas comparison `cell >= cutoff`: a real timestamp compares
numerically; NaT (and any non-timestamp) compares false. -/
def Value.geTime (v : Value) (cutoff : Int) : Bool :=
  match v with
  | Value.timestamp t => decide (cutoff ≤ t)
  | _ => false

/-- inactive_hosts_df = df[df[lastRegCol] < cutoff_date], line 122. -/
def inactive_hosts_df (df : DataFrame) (cutoff : Int) : DataFrame :=
  { df with rows := df.rows.filter (fun r => Value.ltTime (Row.get r lastRegCol) cutoff) }

/-- active_hosts_df = df[df[lastRegCol] >= cutoff_date], line 123. -/
def active_hosts_df (df : DataFrame) (cutoff : Int) : DataFrame :=
  { df with rows := df.rows.filter (fun r => Value.geTime (Row.get r lastRegCol) cutoff) }

/-- Pandas `!=` on two cells: a missing value is unequal to everything,
including another missing value; two present values compare by equality. -/
def Value.pdNe (a b : Value) : Bool :=
  match a, b with
  | Value.na, _ => true
  | _, Value.na => true
  | a, b => a != b

/-- Worker for dedupFirst: drop every value already recorded in `seen`,
keep the first occurrence of each new value. -/
def dedupFirstGo (seen : List Value) : List Value → List Value
  | [] => []
  | v :: vs =>
    if v ∈ seen then dedupFirstGo seen vs
    else v :: dedupFirstGo (v :: seen) vs

/-- The distinct values of a list in order of first appearance, the order
in which pandas value_counts and Series.unique report distinct values. -/
def dedupFirst (l : List Value) : List Value := dedupFirstGo [] l

/-- The (value, count) pairs of Series.value_counts before its descending
sort: missing values are dropped, distinct values are listed in order of
first appearance, and each is paired with its number of occurrences. -/
def unsorted_counts (vs : List Value) : List (Value × Nat) :=
  let present := vs.filter (fun v => v != Value.na)
  (dedupFirst present).map (fun v => (v, present.count v))

/-- Series.value_counts (lines 144, 154, 167): the (value, count) pairs
sorted by descending count with a stable sort, so ties keep the
first-appearance order. -/
def value_counts (vs : List Value) : List (Value × Nat) :=
  (unsorted_counts vs).mergeSort (fun a b => decide (b.2 ≤ a.2))

/-- value_counts applied to one column of a table, as in
active_hosts_df[c].value_counts(). -/
def column_value_counts (df : DataFrame) (c : String) : List (Value × Nat) :=
  value_counts (df.rows.map (fun r => Row.get r c))

/-- The four columns whose categorical distributions the dashboard charts
(lines 140, 144, 150, 154). -/
def countedColumns : List String :=
  [statusCol, versionCol, usingTlsCol, netClientCol]

/-- error_df of line 165: the active rows whose Registration Error is
present (notna) and differs from the text placeholder, under pandas `!=`. -/
def error_df (active : DataFrame) : DataFrame :=
  { active with rows := active.rows.filter (fun r =>
      (Row.get r regErrorCol != Value.na) &&
        Value.pdNe (Row.get r regErrorCol) (Value.str "None")) }

/-- Lines 166-171: if error_df is empty the dashboard reports that no
registration errors were found (`none`); otherwise it charts
error_df[regErrorCol].value_counts(). -/
def error_report (active : DataFrame) : Option (List (Value × Nat)) :=
  if (error_df active).rows.isEmpty then none
  else some (column_value_counts (error_df active) regErrorCol)

/-- mismatch_df of line 176: the active rows whose two network-location
cells differ under pandas `!=`. -/
def mismatch_df (active : DataFrame) : DataFrame :=
  { active with rows := active.rows.filter (fun r =>
      Value.pdNe (Row.get r netClientCol) (Row.get r netServerCol)) }

/-- The three columns the mismatch table displays (line 178). -/
def mismatchCols : List String := [hostNameCol, netClientCol, netServerCol]

/-- df[[c1, ..., ck]]: keep the named columns, in the given order. -/
def selectColumns (df : DataFrame) (cols : List String) : DataFrame :=
  { columns := cols,
    rows := df.rows.map (fun r => cols.map (fun c => (c, Row.get r c))) }

/-- The displayed mismatch table of line 178:
mismatch_df[[hostNameCol, netClientCol, netServerCol]]. -/
def mismatch_view (active : DataFrame) : DataFrame :=
  selectColumns (mismatch_df active) mismatchCols

/-- set(df[hostNameCol].unique()) of lines 66-67: the distinct Host Name
values of a table, kept as a duplicate-free list. -/
def unique_hosts (df : DataFrame) : List Value :=
  dedupFirst (df.rows.map (fun r => Row.get r hostNameCol))

/-- added_hosts = list(new_hosts - old_hosts), line 70. -/
def added_hosts (df_new df_old : DataFrame) : List Value :=
  (unique_hosts df_new).filter (fun h => decide (h ∉ unique_hosts df_old))

/-- removed_hosts = list(old_hosts - new_hosts), line 71. -/
def removed_hosts (df_new df_old : DataFrame) : List Value :=
  (unique_hosts df_old).filter (fun h => decide (h ∉ unique_hosts df_new))

/-- The set of distinct Host Name values of a table, as a finite set. -/
def hostSet (df : DataFrame) : Finset Value :=
  (df.rows.map (fun r => Row.get r hostNameCol)).toFinset

/-- The comparison-specific schema message of line 88. -/
def hostCompareError : String :=
  "The Host Name column must be present in both files to perform a comparison."

/-- The report comparison of lines 57-88: if both tables carry a Host Name
column, the added and removed host lists are computed; otherwise a
comparison-specific schema error is shown and no lists are produced. -/
def compareReports (df_new df_old : DataFrame) :
    Except String (List Value × List Value) :=
  if hostNameCol ∈ df_new.columns ∧ hostNameCol ∈ df_old.columns then
    Except.ok (added_hosts df_new df_old, removed_hosts df_new df_old)
  else
    Except.error hostCompareError

/-- all(col in df.columns for col in required_columns), line 101. -/
def validateSchema (df : DataFrame) : Bool :=
  required_columns.all (fun c => df.columns.contains c)

/-- The schema error message of lines 102-105; it lists every required
column, not only the missing ones. -/
def missingColumnsError : String :=
  "Error: The uploaded file is missing one or more required columns. " ++
    "Please ensure it contains: " ++ String.intercalate ", " required_columns

/-- Everything the single-file analysis of lines 106-180 computes once the
schema check has passed. -/
structure Analysis where
  dropped : Nat
  dropWarning : Bool
  cleaned : DataFrame
  inactive : DataFrame
  active : DataFrame
  status_counts : List (Value × Nat)
  version_counts : List (Value × Nat)
  tls_counts : List (Value × Nat)
  net_client_counts : List (Value × Nat)
  error_counts : Option (List (Value × Nat))
  mismatches : DataFrame
  deriving Repr

/-- The single-file analysis of lines 91-180: schema validation halts with
the missing-columns error, otherwise cleaning, classification and every
aggregation run on the one table. -/
def analyzeReport (parse : String → Option Int) (now : Int)
    (days_threshold : Nat) (df : DataFrame) : Except String Analysis :=
  if validateSchema df then
    let converted := convertLastRegistration parse df
    let original_rows := converted.rows.length
    let dfc := dropnaLastRegistration converted
    let cutoff := cutoff_date now days_threshold
    let act := active_hosts_df dfc cutoff
    Except.ok
      { dropped := original_rows - dfc.rows.length
        dropWarning := decide (dfc.rows.length < original_rows)
        cleaned := dfc
        inactive := inactive_hosts_df dfc cutoff
        active := act
        status_counts := column_value_counts act statusCol
        version_counts := column_value_counts act versionCol
        tls_counts := column_value_counts act usingTlsCol
        net_client_counts := column_value_counts act netClientCol
        error_counts := error_report act
        mismatches := mismatch_view act }
  else
    Except.error missingColumnsError

/-- One full interaction: the optional comparison section followed by the
single-file analysis of the new report (lines 54-183). -/
structure PipelineOutput where
  comparison : Option (Except String (List Value × List Value))
  single : Except String Analysis
  deriving Repr

/-- The main panel: when an old report is supplied the comparison section
runs first; single-file analysis of the new report runs either way. -/
def runPipeline (parse : String → Option Int) (now : Int)
    (days_threshold : Nat) (df_new : DataFrame) (df_old : Option DataFrame) :
    PipelineOutput :=
  { comparison := df_old.map (fun old => compareReports df_new old)
    single := analyzeReport parse now days_threshold df_new }

/-! Helper lemmas about rows, cleaning and deduplication. -/

theorem Row.get_set_ne (r : Row) (c c2 : String) (v : Value) (h : c2 ≠ c) :
    Row.get (Row.set r c v) c2 = Row.get r c2 := by
  induction r with
  | nil => rfl
  | cons p r ih =>
    by_cases hp : p.1 = c
    · have hc2 : ¬(c = c2) := fun hh => h hh.symm
      have hp2 : ¬(p.1 = c2) := by rw [hp]; exact hc2
      simp only [Row.set, List.map_cons, if_pos hp, Row.get, if_neg hc2,
        if_neg hp2]
      exact ih
    · simp only [Row.set, List.map_cons, if_neg hp, Row.get]
      by_cases hq : p.1 = c2
      · simp [hq]
      · simp only [if_neg hq]
        exact ih

theorem Row.get_set_apply (r : Row) (c : String) (f : Value → Value)
    (hf : f Value.na = Value.na) :
    Row.get (Row.set r c (f (Row.get r c))) c = f (Row.get r c) := by
  induction r with
  | nil => simpa [Row.get, Row.set] using hf.symm
  | cons p r ih =>
    by_cases hp : p.1 = c
    · simp [Row.get, Row.set, hp]
    · simp only [Row.get, if_neg hp, Row.set, List.map_cons]
      simpa [Row.get, if_neg hp] using ih

theorem toDatetime_na (parse : String → Option Int) :
    toDatetime parse Value.na = Value.na := rfl

theorem Row.get_convertRow_lastReg (parse : String → Option Int) (r : Row) :
    Row.get (convertRow parse r) lastRegCol
      = toDatetime parse (Row.get r lastRegCol) :=
  Row.get_set_apply r lastRegCol (toDatetime parse) (toDatetime_na parse)

theorem Row.get_convertRow_ne (parse : String → Option Int) (r : Row)
    (c : String) (h : c ≠ lastRegCol) :
    Row.get (convertRow parse r) c = Row.get r c :=
  Row.get_set_ne r lastRegCol c _ h

theorem toDatetime_ne_na (parse : String → Option Int) (v : Value)
    (h : toDatetime parse v ≠ Value.na) :
    ∃ t, toDatetime parse v = Value.timestamp t := by
  cases v with
  | str s =>
    cases hp : parse s with
    | some t => exact ⟨t, by simp [toDatetime, hp]⟩
    | none => exact absurd (by simp [toDatetime, hp]) h
  | timestamp t => exact ⟨t, rfl⟩
  | na => exact absurd rfl h

theorem cleanedReport_rows (parse : String → Option Int) (df : DataFrame) :
    (cleanedReport parse df).rows
      = (df.rows.filter
          (fun r => toDatetime parse (Row.get r lastRegCol) != Value.na)).map
            (convertRow parse) := by
  simp only [cleanedReport, dropnaLastRegistration, convertLastRegistration]
  rw [List.filter_map]
  congr 1
  apply List.filter_congr
  intro r _
  simp [Function.comp, Row.get_convertRow_lastReg]

theorem mem_cleanedReport (parse : String → Option Int) (df : DataFrame)
    (r : Row) :
    r ∈ (cleanedReport parse df).rows ↔
      ∃ r0, r0 ∈ df.rows ∧ toDatetime parse (Row.get r0 lastRegCol) ≠ Value.na
        ∧ r = convertRow parse r0 := by
  rw [cleanedReport_rows]
  simp only [List.mem_map, List.mem_filter, bne_iff_ne]
  constructor
  · rintro ⟨r0, ⟨h0, hne⟩, rfl⟩
    exact ⟨r0, h0, hne, rfl⟩
  · rintro ⟨r0, h0, hne, rfl⟩
    exact ⟨r0, ⟨h0, hne⟩, rfl⟩

theorem cleanedReport_parseable (parse : String → Option Int) (df : DataFrame)
    (r : Row) (hr : r ∈ (cleanedReport parse df).rows) :
    ∃ t, Row.get r lastRegCol = Value.timestamp t := by
  rw [mem_cleanedReport] at hr
  obtain ⟨r0, _, hne, rfl⟩ := hr
  rw [Row.get_convertRow_lastReg]
  exact toDatetime_ne_na parse _ hne

theorem cleanedReport_length (parse : String → Option Int) (df : DataFrame) :
    (cleanedReport parse df).rows.length
      = df.rows.length
        - (df.rows.filter
            (fun r => toDatetime parse (Row.get r lastRegCol) == Value.na)).length := by
  rw [cleanedReport_rows, List.length_map]
  have hperm :=
    (List.filter_append_perm
      (fun r => toDatetime parse (Row.get r lastRegCol) == Value.na)
      df.rows).length_eq
  rw [List.length_append] at hperm
  have hfeq : df.rows.filter
        (fun r => toDatetime parse (Row.get r lastRegCol) != Value.na)
      = df.rows.filter
        (fun r => !(toDatetime parse (Row.get r lastRegCol) == Value.na)) := by
    apply List.filter_congr
    intro a _
    rfl
  rw [hfeq]
  omega

theorem dropped_le_length (parse : String → Option Int) (df : DataFrame) :
    (df.rows.filter
        (fun r => toDatetime parse (Row.get r lastRegCol) == Value.na)).length
      ≤ df.rows.length :=
  List.length_filter_le _ _

theorem mem_dedupFirstGo (a : Value) (l seen : List Value) :
    a ∈ dedupFirstGo seen l ↔ a ∈ l ∧ a ∉ seen := by
  induction l generalizing seen with
  | nil => simp [dedupFirstGo]
  | cons v vs ih =>
    by_cases hv : v ∈ seen
    · rw [dedupFirstGo, if_pos hv, ih]
      by_cases ha : a = v
      · subst ha
        simp [hv]
      · simp [List.mem_cons, ha]
    · rw [dedupFirstGo, if_neg hv]
      by_cases ha : a = v
      · subst ha
        simp [hv]
      · simp only [List.mem_cons, ih, List.mem_cons]
        constructor
        · rintro (h | ⟨h1, h2⟩)
          · exact absurd h ha
          · exact ⟨Or.inr h1, fun hs => h2 (Or.inr hs)⟩
        · rintro ⟨h | h, h2⟩
          · exact absurd h ha
          · exact Or.inr ⟨h, fun hs => by
              rcases hs with hs | hs
              · exact ha hs
              · exact h2 hs⟩

theorem nodup_dedupFirstGo (l seen : List Value) :
    (dedupFirstGo seen l).Nodup := by
  induction l generalizing seen with
  | nil => simp [dedupFirstGo]
  | cons v vs ih =>
    by_cases hv : v ∈ seen
    · rw [dedupFirstGo, if_pos hv]
      exact ih seen
    · rw [dedupFirstGo, if_neg hv]
      refine List.nodup_cons.mpr ⟨?_, ih (v :: seen)⟩
      intro hc
      exact ((mem_dedupFirstGo v vs (v :: seen)).mp hc).2 (List.mem_cons_self v seen)

theorem mem_dedupFirst (a : Value) (l : List Value) :
    a ∈ dedupFirst l ↔ a ∈ l := by
  rw [dedupFirst, mem_dedupFirstGo]
  simp

theorem nodup_dedupFirst (l : List Value) : (dedupFirst l).Nodup :=
  nodup_dedupFirstGo l []

theorem toFinset_dedupFirst (l : List Value) :
    (dedupFirst l).toFinset = l.toFinset := by
  ext a
  simp [List.mem_toFinset, mem_dedupFirst]

theorem sum_count_dedupFirst (l : List Value) :
    ((dedupFirst l).map (fun v => l.count v)).sum = l.length := by
  rw [← List.sum_toFinset _ (nodup_dedupFirst l), toFinset_dedupFirst]
  exact List.sum_toFinset_count_eq_length l

/-! Lemmas about value_counts. -/

theorem countDescLE_trans (a b c : Value × Nat)
    (hab : decide (b.2 ≤ a.2) = true) (hbc : decide (c.2 ≤ b.2) = true) :
    decide (c.2 ≤ a.2) = true := by
  simp only [decide_eq_true_eq] at *
  omega

theorem countDescLE_total (a b : Value × Nat) :
    (decide (b.2 ≤ a.2) || decide (a.2 ≤ b.2)) = true := by
  simp only [Bool.or_eq_true, decide_eq_true_eq]
  omega

theorem value_counts_sum (vs : List Value) :
    ((value_counts vs).map (fun p => p.2)).sum
      = (vs.filter (fun v => v != Value.na)).length := by
  rw [value_counts,
    (((unsorted_counts vs).mergeSort_perm _).map (fun p : Value × Nat => p.2)).sum_eq]
  rw [unsorted_counts]
  simp only [List.map_map, Function.comp]
  exact sum_count_dedupFirst _

theorem value_counts_pos (vs : List Value) (p : Value × Nat)
    (hp : p ∈ value_counts vs) : 1 ≤ p.2 := by
  rw [value_counts, List.mem_mergeSort, unsorted_counts] at hp
  simp only [List.mem_map] at hp
  obtain ⟨v, hv, rfl⟩ := hp
  exact List.count_pos_iff.mpr ((mem_dedupFirst v _).mp hv)

theorem value_counts_nodup_fst (vs : List Value) :
    ((value_counts vs).map (fun p => p.1)).Nodup := by
  rw [value_counts,
    (((unsorted_counts vs).mergeSort_perm _).map
      (fun p : Value × Nat => p.1)).nodup_iff]
  rw [unsorted_counts]
  simp only [List.map_map, Function.comp_def]
  simpa using nodup_dedupFirst _

theorem value_counts_sorted (vs : List Value) :
    (value_counts vs).Pairwise (fun a b => b.2 ≤ a.2) := by
  have h := List.sorted_mergeSort
    countDescLE_trans countDescLE_total (unsorted_counts vs)
  exact h.imp (fun hab => by simpa using hab)

theorem value_counts_stable (vs : List Value) (p q : Value × Nat)
    (hsub : List.Sublist [p, q] (unsorted_counts vs)) (heq : p.2 = q.2) :
    List.Sublist [p, q] (value_counts vs) := by
  rw [value_counts]
  refine List.sublist_mergeSort countDescLE_trans countDescLE_total ?_ hsub
  refine List.pairwise_cons.mpr ⟨?_, List.pairwise_singleton _ _⟩
  intro b hb
  rw [List.mem_singleton] at hb
  subst hb
  simp [heq]

/-! Membership in the classified tables. -/

theorem mem_active_hosts (df : DataFrame) (cutoff : Int) (r : Row) :
    r ∈ (active_hosts_df df cutoff).rows ↔
      r ∈ df.rows ∧ Value.geTime (Row.get r lastRegCol) cutoff = true := by
  simp [active_hosts_df, List.mem_filter]

theorem mem_inactive_hosts (df : DataFrame) (cutoff : Int) (r : Row) :
    r ∈ (inactive_hosts_df df cutoff).rows ↔
      r ∈ df.rows ∧ Value.ltTime (Row.get r lastRegCol) cutoff = true := by
  simp [inactive_hosts_df, List.mem_filter]

/-! The claims. -/

/-- Contract of the Activity Classifier on one cleaned table: over the
cleaned rows, with cutoff = now - T days, a row is Active iff its Last
Registration timestamp is ≥ the cutoff and Inactive iff it is < the
cutoff; the two tables are disjoint and, as multisets of rows, Inactive
together with Active is exactly the cleaned table. -/
def ActivityPartitionSpec (parse : String → Option Int) (df : DataFrame)
    (now : Int) (T : Nat) : Prop :=
  let dfc := cleanedReport parse df
  let cutoff := cutoff_date now T
  let act := active_hosts_df dfc cutoff
  let inact := inactive_hosts_df dfc cutoff
  (∀ r ∈ dfc.rows, ∀ t : Int, Row.get r lastRegCol = Value.timestamp t →
      ((r ∈ act.rows ↔ cutoff ≤ t) ∧ (r ∈ inact.rows ↔ t < cutoff))) ∧
  (∀ r ∈ act.rows, r ∉ inact.rows) ∧
  ((inact.rows ++ act.rows : List Row) : Multiset Row) = (dfc.rows : Multiset Row)

/-- C1: for every cleaned table, threshold T between 1 and 120 days, and
reference instant now, classification with cutoff = now - T days places a
row in Active iff Last Registration ≥ cutoff and in Inactive iff it is <
cutoff; the two tables are disjoint and their union as multisets of rows
is the cleaned table, with no row lost or duplicated. -/
theorem claim_C1_activity_partition (parse : String → Option Int)
    (df : DataFrame) (now : Int) (T : Nat) (hT : 1 ≤ T ∧ T ≤ 120) :
    ActivityPartitionSpec parse df now T := by
  unfold ActivityPartitionSpec
  refine ⟨?_, ?_, ?_⟩
  · intro r hr t ht
    constructor
    · rw [mem_active_hosts]
      constructor
      · rintro ⟨-, hge⟩
        simpa [Value.geTime, ht] using hge
      · intro hle
        exact ⟨hr, by simp [Value.geTime, ht, hle]⟩
    · rw [mem_inactive_hosts]
      constructor
      · rintro ⟨-, hlt⟩
        simpa [Value.ltTime, ht] using hlt
      · intro hlt
        exact ⟨hr, by simp [Value.ltTime, ht, hlt]⟩
  · intro r hra hri
    rw [mem_active_hosts] at hra
    rw [mem_inactive_hosts] at hri
    obtain ⟨t, ht⟩ := cleanedReport_parseable parse df r hra.1
    have h1 := hra.2
    have h2 := hri.2
    rw [ht] at h1 h2
    simp only [Value.geTime, Value.ltTime, decide_eq_true_eq] at h1 h2
    omega
  · have hact : (active_hosts_df (cleanedReport parse df)
          (cutoff_date now T)).rows
        = (cleanedReport parse df).rows.filter
            (fun r => !(Value.ltTime (Row.get r lastRegCol)
              (cutoff_date now T))) := by
      apply List.filter_congr
      intro r hr
      obtain ⟨t, ht⟩ := cleanedReport_parseable parse df r hr
      rcases lt_or_le t (cutoff_date now T) with hct | hct
      · simp [Value.geTime, Value.ltTime, ht, hct, not_le.mpr hct]
      · simp [Value.geTime, Value.ltTime, ht, hct, not_lt.mpr hct]
    have hperm := List.filter_append_perm
      (fun r => Value.ltTime (Row.get r lastRegCol) (cutoff_date now T))
      (cleanedReport parse df).rows
    rw [Multiset.coe_eq_coe]
    show List.Perm ((inactive_hosts_df _ _).rows ++ (active_hosts_df _ _).rows) _
    rw [hact]
    exact hperm

/-- C10: classification selects rows without modifying them: every row of
the Active or Inactive table is a row of the cleaned table and arises from
a row of the loaded table, agreeing with it on every column other than
Last Registration, whose value is the parsed form of the original cell. -/
theorem claim_C10_classification_frame (parse : String → Option Int)
    (df : DataFrame) (cutoff : Int) (r : Row)
    (hr : r ∈ (active_hosts_df (cleanedReport parse df) cutoff).rows ∨
          r ∈ (inactive_hosts_df (cleanedReport parse df) cutoff).rows) :
    r ∈ (cleanedReport parse df).rows ∧
      ∃ r0, r0 ∈ df.rows ∧
        (∀ c, c ≠ lastRegCol → Row.get r c = Row.get r0 c) ∧
        Row.get r lastRegCol = toDatetime parse (Row.get r0 lastRegCol) := by
  have hc : r ∈ (cleanedReport parse df).rows := by
    rcases hr with h | h
    · exact ((mem_active_hosts _ _ _).mp h).1
    · exact ((mem_inactive_hosts _ _ _).mp h).1
  refine ⟨hc, ?_⟩
  obtain ⟨r0, h0, -, rfl⟩ := (mem_cleanedReport parse df r).mp hc
  exact ⟨r0, h0,
    fun c hcne => Row.get_convertRow_ne parse r0 c hcne,
    Row.get_convertRow_lastReg parse r0⟩

/-- Contract of the Row Cleaner inside the single-file analysis: on a
table that passed schema validation, with N rows of which D have an
unparseable Last Registration cell, the analysis succeeds, its cleaned
table is the cleaned report with exactly N - D rows, the reported drop
count is D, the warning is shown exactly when D > 0, and every cleaned
row carries a parsed timestamp. -/
def RowCleanerSpec (parse : String → Option Int) (now : Int) (T : Nat)
    (df : DataFrame) : Prop :=
  let N := df.rows.length
  let D := (df.rows.filter
      (fun r => toDatetime parse (Row.get r lastRegCol) == Value.na)).length
  ∃ a : Analysis, analyzeReport parse now T df = Except.ok a ∧
    a.cleaned = cleanedReport parse df ∧
    a.cleaned.rows.length = N - D ∧
    a.dropped = D ∧
    (a.dropWarning = true ↔ 0 < D) ∧
    ∀ r ∈ a.cleaned.rows, ∃ t, Row.get r lastRegCol = Value.timestamp t

/-- C2: for every validated table with N rows of which D fail timestamp
parsing on Last Registration, the cleaner outputs exactly N - D rows, all
with parseable timestamps, reports D as the drop count, and surfaces the
warning exactly when D > 0. -/
theorem claim_C2_row_cleaner (parse : String → Option Int) (now : Int)
    (T : Nat) (df : DataFrame) (hv : validateSchema df = true) :
    RowCleanerSpec parse now T df := by
  unfold RowCleanerSpec
  simp only [analyzeReport, hv, if_true]
  refine ⟨_, rfl, rfl, ?_, ?_, ?_, ?_⟩
  · exact cleanedReport_length parse df
  · show (convertLastRegistration parse df).rows.length
        - (cleanedReport parse df).rows.length = _
    have hconv : (convertLastRegistration parse df).rows.length
        = df.rows.length := List.length_map _ _
    have hlen := cleanedReport_length parse df
    have hle := dropped_le_length parse df
    omega
  · show decide ((cleanedReport parse df).rows.length
        < (convertLastRegistration parse df).rows.length) = true ↔ _
    have hconv : (convertLastRegistration parse df).rows.length
        = df.rows.length := List.length_map _ _
    have hlen := cleanedReport_length parse df
    have hle := dropped_le_length parse df
    simp only [decide_eq_true_eq]
    omega
  · exact cleanedReport_parseable parse df

/-! Concrete example data for the witnesses: a parser that accepts one
date literal, a fully-populated report row, a row with an unparseable
date, and small report tables built from them. -/

def exampleParse : String → Option Int :=
  fun s => if s = "2024-01-01" then some 100 else none

def exampleRowA : Row :=
  [(hostNameCol, Value.str "alpha"), (netClientCol, Value.str "net1"),
   (netServerCol, Value.str "net1"), ("Valid Key", Value.str "yes"),
   (usingTlsCol, Value.str "Yes"), ("Send State", Value.str "ok"),
   ("Receive State", Value.str "ok"), (statusCol, Value.str "Healthy"),
   (regErrorCol, Value.str "None"), (lastRegCol, Value.str "2024-01-01"),
   (versionCol, Value.str "1.0")]

def exampleRowBad : Row :=
  [(hostNameCol, Value.str "beta"), (netClientCol, Value.str "net2"),
   (netServerCol, Value.str "net2"), ("Valid Key", Value.str "yes"),
   (usingTlsCol, Value.str "No"), ("Send State", Value.str "ok"),
   ("Receive State", Value.str "ok"), (statusCol, Value.str "Healthy"),
   (regErrorCol, Value.str "None"), (lastRegCol, Value.str "never"),
   (versionCol, Value.str "1.0")]

def exampleDfC1 : DataFrame :=
  { columns := required_columns, rows := [exampleRowA] }

def exampleDfC2 : DataFrame :=
  { columns := required_columns, rows := [exampleRowA, exampleRowBad] }

def exampleDfC10 : DataFrame :=
  { columns := required_columns, rows := [exampleRowA] }

/-- C1 witness: the partition contract instantiated at a concrete table,
reference instant 0 and threshold 30. -/
theorem claim_C1_witness :
    (1 ≤ 30 ∧ 30 ≤ 120) ∧ ActivityPartitionSpec exampleParse exampleDfC1 0 30 :=
  ⟨by decide, claim_C1_activity_partition exampleParse exampleDfC1 0 30 (by decide)⟩

/-- C2 witness: the cleaner contract instantiated at a concrete validated
table holding one parseable and one unparseable date. -/
theorem claim_C2_witness :
    validateSchema exampleDfC2 = true ∧ RowCleanerSpec exampleParse 0 30 exampleDfC2 :=
  ⟨by decide, claim_C2_row_cleaner exampleParse 0 30 exampleDfC2 (by decide)⟩

/-- C10 witness: the frame property instantiated at the converted concrete
row, which lands in the Active table for cutoff 0. -/
theorem claim_C10_witness :
    ((convertRow exampleParse exampleRowA)
        ∈ (active_hosts_df (cleanedReport exampleParse exampleDfC10) 0).rows ∨
      (convertRow exampleParse exampleRowA)
        ∈ (inactive_hosts_df (cleanedReport exampleParse exampleDfC10) 0).rows) ∧
    ((convertRow exampleParse exampleRowA)
        ∈ (cleanedReport exampleParse exampleDfC10).rows ∧
      ∃ r0, r0 ∈ exampleDfC10.rows ∧
        (∀ c, c ≠ lastRegCol →
          Row.get (convertRow exampleParse exampleRowA) c = Row.get r0 c) ∧
        Row.get (convertRow exampleParse exampleRowA) lastRegCol
          = toDatetime exampleParse (Row.get r0 lastRegCol)) :=
  ⟨Or.inl (by decide),
    claim_C10_classification_frame exampleParse exampleDfC10 0
      (convertRow exampleParse exampleRowA) (Or.inl (by decide))⟩

theorem mem_unique_hosts (df : DataFrame) (a : Value) :
    a ∈ unique_hosts df ↔ a ∈ hostSet df := by
  rw [unique_hosts, mem_dedupFirst, hostSet, List.mem_toFinset]

theorem added_hosts_toFinset (df_new df_old : DataFrame) :
    (added_hosts df_new df_old).toFinset = hostSet df_new \ hostSet df_old := by
  ext a
  simp only [added_hosts, List.mem_toFinset, List.mem_filter,
    Finset.mem_sdiff, decide_eq_true_eq, mem_unique_hosts]

theorem removed_hosts_toFinset (df_new df_old : DataFrame) :
    (removed_hosts df_new df_old).toFinset = hostSet df_old \ hostSet df_new := by
  ext a
  simp only [removed_hosts, List.mem_toFinset, List.mem_filter,
    Finset.mem_sdiff, decide_eq_true_eq, mem_unique_hosts]

/-- Contract of the Comparator on two tables that both carry a Host Name
column: it succeeds, Added is the distinct new hosts minus the old ones,
Removed the distinct old hosts minus the new ones, the two are disjoint,
and each united with the common hosts recovers the full host set of its
table. -/
def ComparatorSpec (df_new df_old : DataFrame) : Prop :=
  ∃ added removed : List Value,
    compareReports df_new df_old = Except.ok (added, removed) ∧
    added.toFinset = hostSet df_new \ hostSet df_old ∧
    removed.toFinset = hostSet df_old \ hostSet df_new ∧
    added.toFinset ∩ removed.toFinset = ∅ ∧
    added.toFinset ∪ (hostSet df_new ∩ hostSet df_old) = hostSet df_new ∧
    removed.toFinset ∪ (hostSet df_new ∩ hostSet df_old) = hostSet df_old

/-- C3: on every pair of loaded tables that both contain a Host Name
column, Added is the set of distinct new hosts not in the old table and
Removed the distinct old hosts not in the new one; Added and Removed are
disjoint, Added ∪ (new ∩ old) is the full new host set, and Removed ∪
(new ∩ old) the full old host set. -/
theorem claim_C3_comparator (df_new df_old : DataFrame)
    (h : hostNameCol ∈ df_new.columns ∧ hostNameCol ∈ df_old.columns) :
    ComparatorSpec df_new df_old := by
  refine ⟨added_hosts df_new df_old, removed_hosts df_new df_old,
    ?_, added_hosts_toFinset _ _, removed_hosts_toFinset _ _, ?_, ?_, ?_⟩
  · rw [compareReports, if_pos h]
  · rw [added_hosts_toFinset, removed_hosts_toFinset,
      ← Finset.disjoint_iff_inter_eq_empty]
    exact disjoint_sdiff_sdiff
  · rw [added_hosts_toFinset, Finset.sdiff_union_inter]
  · rw [removed_hosts_toFinset, Finset.inter_comm, Finset.sdiff_union_inter]

def exampleNewC3 : DataFrame :=
  { columns := [hostNameCol],
    rows := [[(hostNameCol, Value.str "B")], [(hostNameCol, Value.str "C")],
             [(hostNameCol, Value.str "D")]] }

def exampleOldC3 : DataFrame :=
  { columns := [hostNameCol],
    rows := [[(hostNameCol, Value.str "A")], [(hostNameCol, Value.str "B")],
             [(hostNameCol, Value.str "C")]] }

/-- C3 witness: the comparator contract instantiated at host sets
old = A, B, C and new = B, C, D. -/
theorem claim_C3_witness :
    (hostNameCol ∈ exampleNewC3.columns ∧ hostNameCol ∈ exampleOldC3.columns) ∧
      ComparatorSpec exampleNewC3 exampleOldC3 :=
  ⟨by decide, claim_C3_comparator exampleNewC3 exampleOldC3 (by decide)⟩

def exampleActiveC4 : DataFrame :=
  { columns := required_columns,
    rows := [[(hostNameCol, Value.str "gamma"), (versionCol, Value.na)]] }

/-- C4 counterexample: an Active table whose single row has a missing
Version cell; value_counts drops the missing value, so its counts sum to
0, not to the number of input rows, which is 1. -/
theorem claim_C4_counterexample :
    ((column_value_counts exampleActiveC4 versionCol).map (fun p => p.2)).sum
      ≠ exampleActiveC4.rows.length := by
  have hu : unsorted_counts
      (exampleActiveC4.rows.map (fun r => Row.get r versionCol)) = [] := by
    decide
  rw [column_value_counts, value_counts, hu, List.mergeSort_nil]
  decide

/-- Amended contract of the categorical counter on one column: the counts
sum to the number of input rows whose cell in that column is present (not
missing); every count is at least 1; no value appears twice; the pairs
are in descending count order; and ties keep the first-appearance order
of the unsorted counts. -/
def CategoricalCountSpec (df : DataFrame) (c : String) : Prop :=
  let vs := df.rows.map (fun r => Row.get r c)
  let present := vs.filter (fun v => v != Value.na)
  let out := column_value_counts df c
  ((out.map (fun p => p.2)).sum = present.length) ∧
  (∀ p ∈ out, 1 ≤ p.2) ∧
  ((out.map (fun p => p.1)).Nodup) ∧
  (out.Pairwise (fun a b => b.2 ≤ a.2)) ∧
  (∀ p q : Value × Nat, List.Sublist [p, q] (unsorted_counts vs) → p.2 = q.2 →
      List.Sublist [p, q] out)

/-- C4 amended: for every Active table and counted column, the categorical
counts sum to the number of input rows with a present value in that
column, every count is ≥ 1, no value appears twice, and the pairs are
sorted by descending count with ties in first-appearance order. -/
theorem claim_C4_categorical_counts (df : DataFrame) (c : String)
    (hc : c ∈ countedColumns) : CategoricalCountSpec df c := by
  unfold CategoricalCountSpec
  exact ⟨value_counts_sum _, value_counts_pos _, value_counts_nodup_fst _,
    value_counts_sorted _, value_counts_stable _⟩

/-- C4 witness: the amended count contract instantiated at the Version
column of a concrete Active table. -/
theorem claim_C4_witness :
    versionCol ∈ countedColumns ∧ CategoricalCountSpec exampleActiveC4 versionCol :=
  ⟨by decide, claim_C4_categorical_counts exampleActiveC4 versionCol (by decide)⟩

def exampleActiveC5 : DataFrame :=
  { columns := required_columns,
    rows := [[(hostNameCol, Value.str "a"), (netClientCol, Value.str "X"),
              (netServerCol, Value.str "Y")]] }

/-- C5 counterexample: in an Active table whose single row has differing
location cells, the mismatch output is the whole Active table, hence not
a strict subset of the Active rows. -/
theorem claim_C5_counterexample :
    (mismatch_df exampleActiveC5).rows = exampleActiveC5.rows ∧
      ¬ (mismatch_df exampleActiveC5).rows.toFinset
          ⊂ exampleActiveC5.rows.toFinset := by decide

/-- Amended contract of the mismatch detector: a row is kept iff its two
location cells differ under the pandas inequality (a missing cell counts
as differing); the kept rows are a sublist (so a subset, not necessarily
strict) of the Active rows; the displayed table exposes exactly the three
columns Host Name, client location, server location, in that order. -/
def MismatchSpec (active : DataFrame) : Prop :=
  (∀ r, r ∈ (mismatch_df active).rows ↔
      r ∈ active.rows ∧
        Value.pdNe (Row.get r netClientCol) (Row.get r netServerCol) = true) ∧
  List.Sublist (mismatch_df active).rows active.rows ∧
  (mismatch_view active).columns = mismatchCols ∧
  (mismatch_view active).rows
      = (mismatch_df active).rows.map
          (fun r => mismatchCols.map (fun c => (c, Row.get r c))) ∧
  ∀ r ∈ (mismatch_view active).rows, r.map (fun p => p.1) = mismatchCols

/-- C5 amended: for every Active table, the mismatch output contains a row
iff its client and server location cells differ (missing cells counting
as different), is a subset of the Active rows, and the displayed table
exposes exactly the three columns Host Name, client location and server
location. -/
theorem claim_C5_mismatch (active : DataFrame) : MismatchSpec active := by
  refine ⟨?_, ?_, rfl, rfl, ?_⟩
  · intro r
    simp [mismatch_df, List.mem_filter]
  · exact List.filter_sublist _
  · intro r hr
    simp only [mismatch_view, selectColumns, List.mem_map] at hr
    obtain ⟨r0, -, rfl⟩ := hr
    rw [List.map_map]
    simp [Function.comp_def]

/-- Contract of the Schema Validator on an invalid table: the single-file
analysis stops with the one missing-columns error, whose message names
all 11 required columns; no Analysis value is produced, so no downstream
single-file component (cleaning, classification, aggregation, rendering)
runs on the table. -/
def SchemaErrorSpec (parse : String → Option Int) (now : Int) (T : Nat)
    (df : DataFrame) : Prop :=
  analyzeReport parse now T df = Except.error missingColumnsError ∧
  required_columns.length = 11 ∧
  ∀ c ∈ required_columns, c.data <:+: missingColumnsError.data

set_option maxRecDepth 40000 in
/-- C6: for every loaded table missing at least one required column, the
validator produces the single error message listing all 11 required
columns and the analysis halts before any downstream component runs. -/
theorem claim_C6_schema_validator (parse : String → Option Int) (now : Int)
    (T : Nat) (df : DataFrame)
    (h : ∃ c ∈ required_columns, c ∉ df.columns) :
    SchemaErrorSpec parse now T df := by
  have hv : validateSchema df = false := by
    obtain ⟨c, hc, hnc⟩ := h
    rw [validateSchema, List.all_eq_false]
    exact ⟨c, hc, by simpa [List.contains] using hnc⟩
  refine ⟨?_, by decide, by decide⟩
  simp only [analyzeReport, hv, Bool.false_eq_true, if_false]

def exampleDfC6 : DataFrame :=
  { columns := [hostNameCol, netClientCol, netServerCol, "Valid Key",
      "Send State", "Receive State", statusCol, regErrorCol, lastRegCol,
      versionCol],
    rows := [] }

/-- C6 witness: a table whose columns lack Using TLS triggers the
missing-columns error. -/
theorem claim_C6_witness :
    (∃ c ∈ required_columns, c ∉ exampleDfC6.columns) ∧
      SchemaErrorSpec exampleParse 0 30 exampleDfC6 :=
  ⟨⟨usingTlsCol, by decide, by decide⟩,
    claim_C6_schema_validator exampleParse 0 30 exampleDfC6
      ⟨usingTlsCol, by decide, by decide⟩⟩

theorem pdNe_str_iff (v : Value) (s : String) :
    Value.pdNe v (Value.str s) = true ↔ v = Value.na ∨ v ≠ Value.str s := by
  cases v <;> simp [Value.pdNe]

/-- Contract of the error-frequency aggregator: a row survives the
restriction iff its Registration Error cell is present and differs from
the text placeholder None; with no surviving row the aggregator reports
the no-errors outcome, otherwise it counts the surviving Registration
Error values. -/
def ErrorFrequencySpec (active : DataFrame) : Prop :=
  (∀ r, r ∈ (error_df active).rows ↔
      r ∈ active.rows ∧ Row.get r regErrorCol ≠ Value.na ∧
        Row.get r regErrorCol ≠ Value.str "None") ∧
  ((error_df active).rows = [] ↔ error_report active = none) ∧
  ((error_df active).rows ≠ [] →
      error_report active
        = some (column_value_counts (error_df active) regErrorCol))

/-- C7: for every Active table, the error-frequency aggregator restricts
to rows whose Registration Error is present and not the textual None
placeholder, counts the remaining values, and reports a no-errors outcome
instead of an empty chart when nothing remains. -/
theorem claim_C7_error_frequency (active : DataFrame) :
    ErrorFrequencySpec active := by
  refine ⟨?_, ?_, ?_⟩
  · intro r
    simp only [error_df, List.mem_filter, Bool.and_eq_true, bne_iff_ne,
      pdNe_str_iff]
    constructor
    · rintro ⟨hr, hna, (h | h)⟩
      · exact absurd h hna
      · exact ⟨hr, hna, h⟩
    · rintro ⟨hr, hna, h⟩
      exact ⟨hr, hna, Or.inr h⟩
  · rw [error_report]
    by_cases h : (error_df active).rows = []
    · simp [h, List.isEmpty_iff]
    · simp [h, List.isEmpty_iff]
  · intro hne
    rw [error_report, if_neg]
    simp [List.isEmpty_iff, hne]

/-- Contract of the comparison path when a Host Name column is missing:
the comparison section shows only its own schema error and produces no
added/removed lists, while the single-file analysis of the new report is
the same as if no old report had been supplied. -/
def ComparatorSchemaFailSpec (parse : String → Option Int) (now : Int)
    (T : Nat) (df_new df_old : DataFrame) : Prop :=
  (runPipeline parse now T df_new (some df_old)).comparison
      = some (Except.error hostCompareError) ∧
  (runPipeline parse now T df_new (some df_old)).single
      = (runPipeline parse now T df_new none).single

/-- C8: for every pair of uploads where at least one table lacks a Host
Name column, the comparator fails with its own schema error and produces
no comparison output, while single-file analysis of the new report
proceeds unaffected. -/
theorem claim_C8_comparison_schema_fail (parse : String → Option Int)
    (now : Int) (T : Nat) (df_new df_old : DataFrame)
    (h : hostNameCol ∉ df_new.columns ∨ hostNameCol ∉ df_old.columns) :
    ComparatorSchemaFailSpec parse now T df_new df_old := by
  constructor
  · show some (compareReports df_new df_old) = _
    rw [compareReports, if_neg]
    tauto
  · rfl

def exampleOldC8 : DataFrame := { columns := [statusCol], rows := [] }

/-- C8 witness: comparing against an old report without a Host Name
column fails the comparison while the single-file path is unchanged. -/
theorem claim_C8_witness :
    (hostNameCol ∉ exampleDfC1.columns ∨ hostNameCol ∉ exampleOldC8.columns) ∧
      ComparatorSchemaFailSpec exampleParse 0 30 exampleDfC1 exampleOldC8 :=
  ⟨Or.inr (by decide),
    claim_C8_comparison_schema_fail exampleParse 0 30 exampleDfC1 exampleOldC8
      (Or.inr (by decide))⟩

def exampleNewC9 : DataFrame :=
  { columns := [hostNameCol],
    rows := [[(hostNameCol, Value.str "dup")], [(hostNameCol, Value.str "dup")]] }

def exampleOldC9 : DataFrame := { columns := [hostNameCol], rows := [] }

/-- C9 counterexample: the host dup occupies two rows of the new report,
yet it contributes exactly once to the added list and never to the
removed list; the Comparator deduplicates instead of double-counting. -/
theorem claim_C9_counterexample :
    (exampleNewC9.rows.map (fun r => Row.get r hostNameCol)).count
        (Value.str "dup") = 2 ∧
      (added_hosts exampleNewC9 exampleOldC9).count (Value.str "dup") = 1 ∧
      (removed_hosts exampleNewC9 exampleOldC9).count (Value.str "dup") = 0 := by
  decide

/-- Amended contract of the Comparator on duplicated hosts: via
set(unique()) each host name contributes at most once to the added and
removed outputs, whatever the number of rows it occupies. -/
def ComparatorDedupSpec (df_new df_old : DataFrame) : Prop :=
  (added_hosts df_new df_old).Nodup ∧ (removed_hosts df_new df_old).Nodup ∧
  (∀ h : Value, (added_hosts df_new df_old).count h ≤ 1) ∧
  (∀ h : Value, (removed_hosts df_new df_old).count h ≤ 1)

/-- C9 amended: duplicated Host Name values within one report are
deduplicated by the Comparator; every host contributes at most one entry
to the added and removed outputs. -/
theorem claim_C9_comparator_dedup (df_new df_old : DataFrame) :
    ComparatorDedupSpec df_new df_old := by
  have h1 : (added_hosts df_new df_old).Nodup :=
    (nodup_dedupFirst _).filter _
  have h2 : (removed_hosts df_new df_old).Nodup :=
    (nodup_dedupFirst _).filter _
  exact ⟨h1, h2, fun h => List.nodup_iff_count_le_one.mp h1 h,
    fun h => List.nodup_iff_count_le_one.mp h2 h⟩

end ServerDashboard
